import Mathlib

/-!
Verification development for the autonomous-marketing repository.

This file gives a shallow embedding, in Lean, of the parts of the code that
the checked properties talk about:

* the retry-with-backoff executor (src/utils/retry.js),
* the continuity engine (src/core/continuity.js),
* the asset download routines of the video and image providers
  (src/providers/videoProvider.js, src/providers/imageProvider.js),
* the video provider's generateVideo control flow (src/providers/videoProvider.js),
* the text provider's generateScript control flow (src/providers/llmProvider.js),
* the pipeline's storyboard decomposition, batch clip continuity resolution and
  export (src/core/pipeline.js),
* the rollback HTTP route (server.js) together with the project store defaults
  (src/storage/projectStore.js).

External I/O (HTTP backends, ffmpeg, Math.random) is modelled by explicit
oracle parameters; the on-disk file system is modelled as an association list
from paths to file contents.  JavaScript truthiness on strings (undefined,
null and the empty string are falsy) is modelled explicitly.
-/

/-- JavaScript truthiness for an optional string value: undefined/null and
the empty string are falsy, every other string is truthy. -/
def jsTruthy : Option String → Bool
  | none => false
  | some s => !(s == "")

/-- The JavaScript expression a || b on two optional string values. -/
def jsOrS (a b : Option String) : Option String :=
  if jsTruthy a then a else b

/-- The JavaScript expression a || d on an optional string with a string
literal default. -/
def jsOrStr (a : Option String) (d : String) : String :=
  if jsTruthy a then a.getD "" else d

/-- Characters of a string, lower-cased (String.prototype.toLowerCase on the
character ranges the code uses). -/
def lowerChars (s : String) : List Char :=
  s.data.map Char.toLower

/-- Whether the first character list is a prefix of the second. -/
def prefChars : List Char → List Char → Bool
  | [], _ => true
  | _ :: _, [] => false
  | a :: as, b :: bs => a == b && prefChars as bs

/-- Whether the first character list occurs contiguously inside the second
(String.prototype.includes). -/
def infChars (needle : List Char) : List Char → Bool
  | [] => prefChars needle []
  | h :: t => prefChars needle (h :: t) || infChars needle t

/-- The file system: an association list from absolute paths to file
contents.  Reads see the most recent write. -/
def FS : Type := List (String × String)

/-- Content of the file at a path, if present. -/
def FS.read (fs : FS) (p : String) : Option String :=
  List.lookup p fs

/-- Remove the file at a path (fs.unlinkSync / fs.unlink). -/
def FS.erase (fs : FS) (p : String) : FS :=
  List.filter (fun kv => !(kv.1 == p)) fs

/-- Write a file at a path, replacing previous content
(fs.writeFileSync / a finished write stream). -/
def FS.write (fs : FS) (p c : String) : FS :=
  (p, c) :: FS.erase fs p

theorem FS.read_write_same (fs : FS) (p c : String) :
    FS.read (FS.write fs p c) p = some c := by
  simp [FS.read, FS.write, List.lookup]

theorem FS.erase_erase (fs : FS) (p : String) :
    FS.erase (FS.erase fs p) p = FS.erase fs p := by
  simp [FS.erase, List.filter_filter]

theorem FS.write_write_same (fs : FS) (p c d : String) :
    FS.write (FS.write fs p c) p d = FS.write fs p d := by
  simp [FS.write, FS.erase, List.filter_filter]

theorem FS.erase_write_same (fs : FS) (p c : String) :
    FS.erase (FS.write fs p c) p = FS.erase fs p := by
  simp [FS.write, FS.erase, List.filter_filter]

/-- Retry policy (src/utils/retry.js DEFAULT_OPTIONS shape).  Delays are in
milliseconds, modelled as rationals because jitter is a real-valued random
fraction. -/
structure RetryPolicy where
  maxRetries : Nat
  initialDelayMs : ℚ
  maxDelayMs : ℚ
  backoffMultiplier : ℚ
  retryableErrors : List String

/-- src/utils/retry.js DEFAULT_OPTIONS. -/
def defaultRetryOptions : RetryPolicy :=
  { maxRetries := 3
    initialDelayMs := 1000
    maxDelayMs := 30000
    backoffMultiplier := 2
    retryableErrors :=
      ["ECONNRESET", "ETIMEDOUT", "ENOTFOUND", "rate limit", "quota exceeded",
       "429", "500", "502", "503", "504"] }

/-- PROVIDER_RETRY_CONFIGS.gemini merged over DEFAULT_OPTIONS (the retry
function spreads DEFAULT_OPTIONS under the provider overrides). -/
def geminiRetryConfig : RetryPolicy :=
  { maxRetries := 3
    initialDelayMs := 2000
    maxDelayMs := 30000
    backoffMultiplier := 2
    retryableErrors :=
      ["rate limit", "quota exceeded", "429", "500", "503", "RESOURCE_EXHAUSTED"] }

/-- PROVIDER_RETRY_CONFIGS.replicate merged over DEFAULT_OPTIONS. -/
def replicateRetryConfig : RetryPolicy :=
  { maxRetries := 3
    initialDelayMs := 1000
    maxDelayMs := 30000
    backoffMultiplier := 2
    retryableErrors := ["rate limit", "429", "500", "503", "processing"] }

/-- getRetryConfig of src/utils/retry.js. -/
def getRetryConfig (provider : String) : RetryPolicy :=
  if provider == "gemini" then geminiRetryConfig
  else if provider == "replicate" then replicateRetryConfig
  else defaultRetryOptions

/-- isRetryable of src/utils/retry.js: case-insensitive substring match of a
pattern against the error message.  Errors in this embedding are their
message strings (the error.code field of Node system errors is subsumed by
the message). -/
def isRetryable (errorMsg : String) (patterns : List String) : Bool :=
  patterns.any fun p => infChars (lowerChars p) (lowerChars errorMsg)

/-- The pure exponential backoff term initialDelay * multiplier ^ (attempt - 1)
of calculateDelay. -/
def expBackoffTerm (opts : RetryPolicy) (attempt : Nat) : ℚ :=
  opts.initialDelayMs * opts.backoffMultiplier ^ (attempt - 1)

/-- calculateDelay of src/utils/retry.js.  rand is the Math.random() sample
in [0, 1); jitter is 0-30% of the exponential term; the sum is capped at
maxDelay. -/
def calculateDelay (attempt : Nat) (initialDelay maxDelay multiplier : ℚ)
    (rand : ℚ) : ℚ :=
  let exponentialDelay := initialDelay * multiplier ^ (attempt - 1)
  let jitter := rand * (3 / 10) * exponentialDelay
  min (exponentialDelay + jitter) maxDelay

/-- Trace of one execution of the retry wrapper: final outcome, final carried
state, number of invocations of the operation, and the delays slept between
consecutive attempts, in order. -/
structure RetryRun (α σ : Type) where
  result : Except String α
  state : σ
  attemptsMade : Nat
  delays : List ℚ

/-- The loop body of retry (src/utils/retry.js): attempt, and on a retryable
error with budget remaining, sleep the computed delay and try again.
attempt is the 1-based attempt counter; remaining is the number of further
attempts still allowed (initially maxRetries, so that at most
maxRetries + 1 invocations happen). -/
def retryGo {α σ : Type} (fn : Nat → σ → Except String α × σ) (opts : RetryPolicy)
    (rand : Nat → ℚ) : Nat → Nat → σ → RetryRun α σ
  | attempt, remaining, s =>
    match fn attempt s with
    | (.ok a, s2) => ⟨.ok a, s2, 1, []⟩
    | (.error e, s2) =>
      match remaining with
      | 0 => ⟨.error e, s2, 1, []⟩
      | r + 1 =>
        if isRetryable e opts.retryableErrors then
          let d := calculateDelay attempt opts.initialDelayMs opts.maxDelayMs
            opts.backoffMultiplier (rand attempt)
          let rest := retryGo fn opts rand (attempt + 1) r s2
          ⟨rest.result, rest.state, rest.attemptsMade + 1, d :: rest.delays⟩
        else ⟨.error e, s2, 1, []⟩

/-- retry of src/utils/retry.js, as a state-threading executor.  fn receives
the 1-based attempt number; rand supplies the Math.random() sample used for
the jitter of the delay slept after a given attempt. -/
def retryExec {α σ : Type} (fn : Nat → σ → Except String α × σ) (opts : RetryPolicy)
    (rand : Nat → ℚ) (s : σ) : RetryRun α σ :=
  retryGo fn opts rand 1 opts.maxRetries s

/-- Shot fields consulted by the continuity engine: the shot's own keyframe
image and the last frame stored on its continuity record
(shot.continuity?.last_frame_path, collapsed through the optional chain). -/
structure ShotView where
  keyframe_image_path : Option String
  last_frame_path : Option String
deriving DecidableEq

/-- Result of ContinuityManager.resolveFrames. -/
structure FrameResolution where
  firstFramePath : Option String
  targetLastFramePath : Option String
deriving DecidableEq

/-- ContinuityManager state (src/core/continuity.js). -/
structure ContinuityManager where
  supportsFirstLast : Bool
  mode : String
deriving DecidableEq

/-- The ContinuityManager constructor: supportsFirstLast defaults to false,
mode defaults to the string bridging (any falsy mode, absent or empty,
falls back to the default). -/
def ContinuityManager.create (supportsFirstLast : Option Bool)
    (mode : Option String) : ContinuityManager :=
  { supportsFirstLast := supportsFirstLast.getD false
    mode := if jsTruthy mode then mode.getD "" else "bridging" }

/-- ContinuityManager.resolveFrames (src/core/continuity.js lines 24-57). -/
def ContinuityManager.resolveFrames (cm : ContinuityManager)
    (previousShot : Option ShotView) (currentShot : ShotView) : FrameResolution :=
  if cm.mode == "independent" then
    ⟨currentShot.keyframe_image_path, none⟩
  else
    match previousShot with
    | none => ⟨currentShot.keyframe_image_path, none⟩
    | some prev =>
      if cm.mode == "last-frame" then
        ⟨jsOrS prev.last_frame_path prev.keyframe_image_path, none⟩
      else if cm.supportsFirstLast then
        ⟨currentShot.keyframe_image_path,
         jsOrS prev.last_frame_path prev.keyframe_image_path⟩
      else
        ⟨jsOrS prev.last_frame_path prev.keyframe_image_path, none⟩

/-- Terminal event of an HTTP asset download, after any redirects: a 200
response whose body is piped to the file, a non-200 non-redirect status
(with the body the server sent), or a request 'error' event. -/
inductive DlFinal
  | okBody (body : String)
  | httpStatus (code : Nat) (body : String)
  | netError (msg : String)
deriving DecidableEq

/-- Script of one download: the chain of 301/302 redirect locations followed,
then the terminal event. -/
structure DownloadScript where
  redirects : List String
  final : DlFinal
deriving DecidableEq

/-- VideoProvider._downloadVideo (src/providers/videoProvider.js lines
381-427).  fs.createWriteStream(outputPath) creates (truncates) the file at
the destination before any response arrives; a 200 response pipes its body
into it and resolves; any other status rejects, leaving the created file in
place; a request error unlinks the destination and rejects.  Redirects are
followed without touching the file. -/
def downloadVideo (dl : DownloadScript) (outputPath : String) (fs : FS) :
    Except String Unit × FS :=
  let fs1 := FS.write fs outputPath ""
  match dl.final with
  | .okBody body => (.ok (), FS.write fs1 outputPath body)
  | .httpStatus code _ =>
      (.error ("Failed to download video: HTTP " ++ toString code), fs1)
  | .netError msg => (.error msg, FS.erase fs1 outputPath)

/-- ImageProvider._downloadImage (src/providers/imageProvider.js lines
401-429).  Unlike the video download it performs no status check: every
non-redirect response, whatever its status code, is piped into the
destination file and the promise resolves; only a request error unlinks the
destination and rejects. -/
def downloadImage (dl : DownloadScript) (outputPath : String) (fs : FS) :
    Except String Unit × FS :=
  let fs1 := FS.write fs outputPath ""
  match dl.final with
  | .okBody body => (.ok (), FS.write fs1 outputPath body)
  | .httpStatus _ body => (.ok (), FS.write fs1 outputPath body)
  | .netError msg => (.error msg, FS.erase fs1 outputPath)

/-- VideoProvider configuration after the constructor has applied its
defaults (src/providers/videoProvider.js lines 26-51). -/
structure VideoConfig where
  provider : String
  useReal : Bool
  geminiApiKey : Option String
  replicateApiKey : Option String
  replicateModel : Option String
  veoModel : String
  retryConfig : RetryPolicy
  settingsDurationSec : Nat

/-- VideoProvider._getActiveProvider (lines 159-177). -/
def videoActiveProvider (cfg : VideoConfig) : String :=
  if !cfg.useReal then "placeholder"
  else if cfg.provider == "gemini" && jsTruthy cfg.geminiApiKey then "gemini"
  else if cfg.provider == "replicate" && jsTruthy cfg.replicateApiKey &&
      jsTruthy cfg.replicateModel then "replicate"
  else if jsTruthy cfg.geminiApiKey then "gemini"
  else if jsTruthy cfg.replicateApiKey && jsTruthy cfg.replicateModel then "replicate"
  else "placeholder"

/-- VideoProvider._getFallbackProvider (lines 140-148). -/
def videoFallbackProvider (cfg : VideoConfig) (currentProvider : String) : String :=
  if currentProvider == "gemini" && jsTruthy cfg.replicateApiKey then "replicate"
  else if currentProvider == "replicate" && jsTruthy cfg.geminiApiKey then "gemini"
  else "placeholder"

/-- Provider tag of the result _generateWithReplicate would return, which
depends on whether the configured model is the motion-control variant
(lines 432-446). -/
def replicateProviderName (cfg : VideoConfig) : String :=
  if infChars (lowerChars "motion-control") (lowerChars (cfg.replicateModel.getD "")) then
    "replicate-kling-motion"
  else "replicate-kling"

/-- One generation request to VideoProvider.generateVideo. -/
structure VideoRequest where
  prompt : String
  negativePrompt : Option String
  outputPath : String
  firstFramePath : Option String
  lastFramePath : Option String
  durationSec : Nat

/-- Result shape of VideoProvider.generateVideo (cost estimate fields
omitted; they never influence control flow). -/
structure VideoResult where
  outputPath : String
  provider : String
  model : String
  error : Option String
  fallbackUsed : Bool
deriving DecidableEq

/-- One backend generation attempt, as seen from generateVideo: either it
fails before reaching the asset download (request construction, HTTP start
call, polling timeout, operation error, missing URI in the response, or the
motion-control precondition throws), or it yields an asset URI whose
download then runs (with the given redirect/terminal behaviour). -/
inductive VideoAttempt
  | preFail (msg : String)
  | download (dl : DownloadScript)
deriving DecidableEq

/-- Whether an attempt fails (its promise rejects): any pre-download failure,
and any download whose terminal event is not a 200 response. -/
def VideoAttempt.fails : VideoAttempt → Bool
  | .preFail _ => true
  | .download dl =>
    match dl.final with
    | .okBody _ => false
    | _ => true

/-- Run one backend attempt of _generateWithVeo / _generateWithReplicate:
on a pre-download failure the file system is untouched; otherwise
_downloadVideo runs against the destination and on success the vendor
result envelope is returned. -/
def runVideoAttempt (providerName modelName : String) (att : VideoAttempt)
    (req : VideoRequest) (fs : FS) : Except String VideoResult × FS :=
  match att with
  | .preFail msg => (.error msg, fs)
  | .download dl =>
    match downloadVideo dl req.outputPath fs with
    | (.ok _, fs2) =>
        (.ok ⟨req.outputPath, providerName, modelName, none, false⟩, fs2)
    | (.error e, fs2) => (.error e, fs2)

/-- External environment of one generateVideo call: ffmpeg availability and
success, the behaviour of each primary backend attempt (indexed by the
1-based attempt number), the behaviour of the single fallback attempt, and
the Math.random() samples used by the retry delays. -/
structure VideoEnv where
  hasFfmpeg : Bool
  ffmpegOk : Bool
  primary : Nat → VideoAttempt
  fallback : VideoAttempt
  rand : Nat → ℚ

/-- VideoProvider._generatePlaceholder (lines 179-214): with ffmpeg and an
existing first frame, loop it into a clip at the destination (falling back
to a plain placeholder write if ffmpeg fails); otherwise write a plain
placeholder file.  Every branch leaves a file at the destination. -/
def generatePlaceholderVideo (req : VideoRequest) (error : Option String)
    (env : VideoEnv) (fs : FS) : VideoResult × FS :=
  let frameExists :=
    match req.firstFramePath with
    | some p => jsTruthy req.firstFramePath && (FS.read fs p).isSome
    | none => false
  let fs2 :=
    if env.hasFfmpeg && frameExists then
      if env.ffmpegOk then FS.write fs req.outputPath "ffmpeg looped clip"
      else FS.write fs req.outputPath "placeholder clip"
    else FS.write fs req.outputPath "placeholder clip"
  (⟨req.outputPath,
    if error.isSome then "placeholder-fallback" else "placeholder",
    "placeholder", error, false⟩, fs2)

/-- Provider tag of the primary result for an active backend. -/
def videoPrimaryName (cfg : VideoConfig) (active : String) : String :=
  if active == "gemini" then "gemini-veo" else replicateProviderName cfg

/-- Model tag of the primary result for an active backend. -/
def videoPrimaryModel (cfg : VideoConfig) (active : String) : String :=
  if active == "gemini" then cfg.veoModel
  else jsOrStr cfg.replicateModel "replicate-video"

/-- The retry run around the primary backend inside generateVideo
(lines 92-106). -/
def primaryRunOf (cfg : VideoConfig) (req : VideoRequest) (env : VideoEnv)
    (fs : FS) : RetryRun VideoResult FS :=
  let active := videoActiveProvider cfg
  retryExec
    (fun attempt s =>
      runVideoAttempt (videoPrimaryName cfg active) (videoPrimaryModel cfg active)
        (env.primary attempt) req s)
    cfg.retryConfig env.rand fs

/-- The single fallback attempt of generateVideo (lines 119-132): the
fallback provider is resolved from the active one and its backend is
invoked once, without the retry wrapper. -/
def fallbackAttemptOf (cfg : VideoConfig) (req : VideoRequest) (env : VideoEnv)
    (fs : FS) : Except String VideoResult × FS :=
  let fb := videoFallbackProvider cfg (videoActiveProvider cfg)
  runVideoAttempt
    (if fb == "gemini" then "gemini-veo" else replicateProviderName cfg)
    (if fb == "gemini" then cfg.veoModel else jsOrStr cfg.replicateModel "replicate-video")
    env.fallback req fs

/-- VideoProvider.generateVideo (lines 65-138): reject on a missing output
path; placeholder provider short-circuit; primary backend behind the retry
executor; one fallback backend attempt; degraded placeholder carrying the
primary error message when everything failed. -/
def generateVideo (cfg : VideoConfig) (req : VideoRequest) (env : VideoEnv)
    (fs : FS) : Except String VideoResult × FS :=
  if req.outputPath == "" then (.error "outputPath is required", fs)
  else
    let active := videoActiveProvider cfg
    if active == "placeholder" then
      let (r, fs2) := generatePlaceholderVideo req none env fs
      (.ok r, fs2)
    else
      let run := primaryRunOf cfg req env fs
      match run.result with
      | .ok r => (.ok r, run.state)
      | .error primaryErr =>
        let fb := videoFallbackProvider cfg active
        if fb == "placeholder" then
          let (r, fs2) := generatePlaceholderVideo req (some primaryErr) env run.state
          (.ok r, fs2)
        else
          match fallbackAttemptOf cfg req env run.state with
          | (.ok r, fs2) => (.ok { r with fallbackUsed := true }, fs2)
          | (.error _, fs2) =>
            let (r, fs3) := generatePlaceholderVideo req (some primaryErr) env fs2
            (.ok r, fs3)

/-- LLMProvider configuration after constructor defaults
(src/providers/llmProvider.js lines 39-53). -/
structure LLMConfig where
  useReal : Bool
  geminiApiKey : Option String
  geminiModel : String
  retryConfig : RetryPolicy

/-- LLMProvider._getActiveProvider (lines 61-71). -/
def llmActiveProvider (cfg : LLMConfig) : String :=
  if !cfg.useReal then "placeholder"
  else if jsTruthy cfg.geminiApiKey then "gemini"
  else "placeholder"

/-- Result shape of LLMProvider.generateScript (cost estimate and usage
metadata omitted; they never influence control flow). -/
structure ScriptResult where
  hook : String
  problem : String
  solution : String
  cta : String
  provider : String
  model : String
  error : Option String
deriving DecidableEq

/-- One Gemini script-generation HTTP exchange, as the response handler of
_generateWithGemini distinguishes its cases (lines 161-211): an HTTP error
status, a request error, a response without candidate text, candidate text
that is not valid JSON, or a parsed script object whose four section fields
may each be absent or empty. -/
inductive GeminiScriptResponse
  | httpError (msg : String)
  | netError (msg : String)
  | noText
  | parseFail (snippet : String)
  | parsed (hook problem solution cta : Option String)
deriving DecidableEq

/-- The response handler of LLMProvider._generateWithGemini: rejects HTTP
errors, missing text and unparsable JSON with their respective messages,
rejects a script with a missing or empty section as a processing error, and
resolves a fully validated script. -/
def processGeminiScriptResponse (model : String) (r : GeminiScriptResponse) :
    Except String ScriptResult :=
  match r with
  | .httpError msg => .error msg
  | .netError msg => .error msg
  | .noText => .error "No text in Gemini response"
  | .parseFail snippet => .error ("Failed to parse script JSON: " ++ snippet)
  | .parsed hook problem solution cta =>
    if jsTruthy hook && jsTruthy problem && jsTruthy solution && jsTruthy cta then
      .ok ⟨hook.getD "", problem.getD "", solution.getD "", cta.getD "",
           "gemini", model, none⟩
    else .error "Script missing required sections"

/-- LLMProvider._generatePlaceholderScript (lines 113-125). -/
def placeholderScript (brief : String) (error : Option String) : ScriptResult :=
  { hook := "Tired of the same old problems? There\x27s a better way."
    problem := "We know how frustrating it can be when things don\x27t work the way you need them to. You\x27ve tried everything, but nothing seems to stick."
    solution := "That\x27s why we created something different. " ++ brief.take 100 ++ "..."
    cta := "Ready to make a change? Get started today and see the difference for yourself."
    provider := if error.isSome then "placeholder-fallback" else "placeholder"
    model := "placeholder"
    error := error }

/-- LLMProvider.generateScript (lines 79-111): placeholder short-circuit when
no real backend is active; otherwise the Gemini call behind the retry
executor, degrading to the placeholder script carrying the error message
when the retry chain is exhausted.  responses gives the backend exchange
for each 1-based attempt; rand the Math.random() samples of the retry
delays. -/
def generateScript (cfg : LLMConfig) (brief : String)
    (responses : Nat → GeminiScriptResponse) (rand : Nat → ℚ) : ScriptResult :=
  if llmActiveProvider cfg == "placeholder" then placeholderScript brief none
  else
    let run := retryExec
      (fun attempt s =>
        (processGeminiScriptResponse cfg.geminiModel (responses attempt), s))
      cfg.retryConfig rand ()
    match run.result with
    | .ok s => s
    | .error e => placeholderScript brief (some e)

/-- Script sections of a project (project.script?.sections collapsed through
the optional chain; absent sections are none). -/
structure ScriptSections where
  hook : Option String
  problem : Option String
  solution : Option String
  cta : Option String
deriving DecidableEq

/-- A storyboard shot as generateStoryboardShots creates it
(src/core/pipeline.js); fields that are fixed nulls/empty records are
represented by their initial values. -/
structure StoryShot where
  id : String
  order : Nat
  duration_sec : Nat
  keyframe_prompt : String
  negative_prompt : String
  on_screen_text : String
  keyframe_image_path : Option String
  keyframe_version : Nat
  video_prompt : String
  clip_path : Option String
  clip_version : Nat
deriving DecidableEq

/-- Project fields consulted by generateStoryboardShots. -/
structure StoryProject where
  script_sections : ScriptSections
  target_duration : Nat
deriving DecidableEq

/-- Math.round (d / k) for natural d and positive k: the floor of
d / k + 1 / 2. -/
def jsRoundDiv (d k : Nat) : Nat := (2 * d + k) / (2 * k)

/-- The labelled section texts, with the per-section fallback strings
(generateStoryboardShots lines 416-421). -/
def sectionLabels (script : ScriptSections) : List (String × String) :=
  [("hook", jsOrStr script.hook "Open with the hook."),
   ("problem", jsOrStr script.problem "Highlight the problem."),
   ("solution", jsOrStr script.solution "Show the solution."),
   ("cta", jsOrStr script.cta "Close with the CTA.")]

/-- generateStoryboardShots (src/core/pipeline.js lines 414-458): one shot
per script section in order, target duration (default 30 when falsy)
apportioned evenly with a minimum of 2 seconds per shot. -/
def generateStoryboardShots (project : StoryProject) : List StoryShot :=
  let duration := if project.target_duration == 0 then 30 else project.target_duration
  let perShot := max 2 (jsRoundDiv duration 4)
  (sectionLabels project.script_sections).enum.map fun (index, shot) =>
    { id := shot.1 ++ "-" ++ toString (index + 1)
      order := index + 1
      duration_sec := perShot
      keyframe_prompt := shot.2 ++ " Visualize with marketing polish."
      negative_prompt := "blurry, distorted, low quality"
      on_screen_text := shot.2
      keyframe_image_path := none
      keyframe_version := 0
      video_prompt := shot.2 ++ " Maintain continuity and brand style."
      clip_path := none
      clip_version := 0 }

/-- Project fields consulted by the batch clip loop and by the export
routine of src/core/pipeline.js. -/
structure PipelineProject where
  id : String
  continuity_mode : String
  shots : List ShotView
deriving DecidableEq

/-- The ContinuityManager that generateClipsForShots constructs
(src/core/pipeline.js line 496): only supportsFirstLast is passed, the mode
option is absent. -/
def clipsContinuityManager : ContinuityManager :=
  ContinuityManager.create (some true) none

/-- The per-shot continuity resolutions computed by the loop of
generateClipsForShots (lines 501-507): shot i is resolved against shot
i - 1 (none for the first shot) with the manager of line 496. -/
def clipSeedFramesGo : Option ShotView → List ShotView → List FrameResolution
  | _, [] => []
  | prev, cur :: rest =>
    clipsContinuityManager.resolveFrames prev cur :: clipSeedFramesGo (some cur) rest

/-- The seed-frame resolutions of one run of generateClipsForShots over a
project's shots, in shot order. -/
def clipSeedFrames (project : PipelineProject) : List FrameResolution :=
  clipSeedFramesGo none project.shots

/-- defaultProject of src/storage/projectStore.js, restricted to the fields
this development consults; the continuity mode defaults to the string
maintain when the creation input leaves it falsy. -/
def defaultProjectContinuityMode (input : Option String) : String :=
  jsOrStr input "maintain"

/-- One entry of a project's exports history. -/
structure ExportEntry where
  path : String
  created_at : String
  audio : Option String
  warning : Option String
deriving DecidableEq

/-- Shot fields consulted by exportProjectVideo. -/
structure ExportShot where
  id : String
  clip_path : Option String
deriving DecidableEq

/-- Project fields consulted by exportProjectVideo. -/
structure ExportProject where
  id : String
  shots : List ExportShot
  exports : List ExportEntry
deriving DecidableEq

/-- Environment of one export run: ffmpeg availability and success, and the
two timestamps the routine takes (new Date().toISOString() and
Date.now()). -/
structure ExportEnv where
  hasFfmpeg : Bool
  ffmpegOk : Bool
  nowIso : String
  nowMs : String
deriving DecidableEq

/-- The export directory of a project (path.join of the data root with the
project id; the process-dependent absolute prefix is abstracted away). -/
def exportDirOf (project : ExportProject) : String :=
  "data/projects/" ++ project.id ++ "/assets/exports"

/-- The destination path of the next export of a project
(src/core/pipeline.js line 543-544). -/
def exportOutputPath (project : ExportProject) : String :=
  exportDirOf project ++ "/final_v" ++ toString (project.exports.length + 1) ++ ".mp4"

/-- The concat list file content: one line per clip
(src/core/pipeline.js line 554). -/
def concatListContent (clipPaths : List String) : String :=
  String.intercalate "\n" (clipPaths.map fun c => "file \x27" ++ c ++ "\x27")

/-- exportProjectVideo (src/core/pipeline.js lines 540-574): fails when no
shot has a truthy clip path; otherwise concatenates the clips with ffmpeg
(writing the concat list file first), degrading to a placeholder export
file with a warning when ffmpeg is missing or fails, and appends the export
to the project's exports history.  Directory creation by ensureProjectDirs
touches no files and is not modelled. -/
def exportProjectVideo (project : ExportProject) (audio_path : Option String)
    (env : ExportEnv) (fs : FS) :
    Except String (ExportProject × String × Option String) × FS :=
  let outputPath := exportOutputPath project
  let clipPaths := project.shots.filterMap fun s =>
    if jsTruthy s.clip_path then s.clip_path else none
  if clipPaths.isEmpty then (.error "No clips available for export.", fs)
  else
    let (warning, fs2) :=
      if env.hasFfmpeg then
        let listFile := exportDirOf project ++ "/concat_" ++ env.nowMs ++ ".txt"
        let fsL := FS.write fs listFile (concatListContent clipPaths)
        if env.ffmpegOk then
          (none, FS.write fsL outputPath "concatenated clips")
        else
          (some "ffmpeg failed: wrote placeholder export",
           FS.write fsL outputPath "export placeholder")
      else
        (some "ffmpeg missing: wrote placeholder export",
         FS.write fs outputPath "export placeholder")
    let entry : ExportEntry :=
      { path := outputPath
        created_at := env.nowIso
        audio := if jsTruthy audio_path then audio_path else none
        warning := warning }
    (.ok ({ project with exports := project.exports ++ [entry] }, outputPath, warning),
     fs2)

/-- One immutable version history entry of a shot: version number and asset
reference (provider-config and timestamp omitted; the rollback route never
consults them). -/
structure VersionEntry where
  version : Nat
  path : Option String
deriving DecidableEq

/-- A shot as the rollback route of server.js sees it: active asset pointers,
active version counters, and the two per-asset version history logs (absent
on projects created before histories existed). -/
structure RollShot where
  id : String
  keyframe_image_path : Option String
  keyframe_version : Nat
  clip_path : Option String
  clip_version : Nat
  keyframe_versions : Option (List VersionEntry)
  clip_versions : Option (List VersionEntry)
deriving DecidableEq

/-- A stored project as the rollback route consults it. -/
structure RollProject where
  id : String
  shots : List RollShot
deriving DecidableEq

/-- The persisted project store (src/storage/projectStore.js): project id to
persisted project state. -/
def ProjectStore : Type := List (String × RollProject)

/-- saveProject: persist a project under its id (the last-modified timestamp
it also refreshes is not consulted by any property here). -/
def saveProjectStore (store : ProjectStore) (p : RollProject) : ProjectStore :=
  (p.id, p) :: List.filter (fun kv => !(kv.1 == p.id)) store

/-- Modelled from the spec: ensureShotHistory, exported by src/core/pipeline.js
but absent from the sources at hand, equips a shot with its per-asset
version history logs when they are missing, never reordering or mutating
entries already appended and never touching the active pointers
(spec sections 3 and 4.4). -/
def ensureShotHistory (shot : RollShot) : RollShot :=
  { shot with
      keyframe_versions := some (shot.keyframe_versions.getD [])
      clip_versions := some (shot.clip_versions.getD []) }

/-- Modelled from the spec: applyKeyframeVersion, exported by
src/core/pipeline.js but absent from the sources at hand, reassigns the
shot's active keyframe pointer to the given history entry without deleting
history (spec section 4.4 rollback). -/
def applyKeyframeVersion (shot : RollShot) (entry : VersionEntry) : RollShot :=
  { shot with keyframe_image_path := entry.path, keyframe_version := entry.version }

/-- Modelled from the spec: applyClipVersion, the clip counterpart of
applyKeyframeVersion. -/
def applyClipVersion (shot : RollShot) (entry : VersionEntry) : RollShot :=
  { shot with clip_path := entry.path, clip_version := entry.version }

/-- Replace the first shot with the given id (the route mutates the shot
object that find located inside the loaded project). -/
def replaceShot : List RollShot → String → RollShot → List RollShot
  | [], _, _ => []
  | s :: rest, sid, ns =>
    if s.id == sid then ns :: rest else s :: replaceShot rest sid ns

/-- HTTP outcome of the rollback route: response status and error message. -/
structure RouteResult where
  status : Nat
  error : Option String
deriving DecidableEq

/-- The rollback route POST /api/projects/:id/shots/:shotId/rollback
(server.js lines 182-216).  The request body's asset is an optional string
(falsy rejected); its version is Number(req.body?.version), modelled as an
optional natural (none for NaN).  Only the success path persists the
project. -/
def rollbackRoute (store : ProjectStore) (pid sid : String)
    (asset : Option String) (version : Option Nat) : RouteResult × ProjectStore :=
  match List.lookup pid store with
  | none => (⟨404, some "Project not found"⟩, store)
  | some project =>
    match project.shots.find? (fun s => s.id == sid) with
    | none => (⟨404, some "Shot not found"⟩, store)
    | some shot0 =>
      let shot := ensureShotHistory shot0
      if !(jsTruthy asset) || version.isNone then
        (⟨400, some "asset and version are required"⟩, store)
      else
        match asset, version with
        | some a, some v =>
          if a == "keyframe" then
            match (shot.keyframe_versions.getD []).find? (fun e => e.version == v) with
            | none => (⟨404, some "Keyframe version not found"⟩, store)
            | some entry =>
              let shot2 := applyKeyframeVersion shot entry
              let project2 := { project with shots := replaceShot project.shots sid shot2 }
              (⟨200, none⟩, saveProjectStore store project2)
          else if a == "clip" then
            match (shot.clip_versions.getD []).find? (fun e => e.version == v) with
            | none => (⟨404, some "Clip version not found"⟩, store)
            | some entry =>
              let shot2 := applyClipVersion shot entry
              let project2 := { project with shots := replaceShot project.shots sid shot2 }
              (⟨200, none⟩, saveProjectStore store project2)
          else (⟨400, some "Invalid asset type"⟩, store)
        | _, _ => (⟨400, some "asset and version are required"⟩, store)

/-- C5: for every input pair, resolveFrames in mode bridging with
supportsFirstLast = false returns exactly the result of resolveFrames in
mode last-frame on the same input (whatever that manager's capability
flag). -/
theorem c5_bridging_degrades_to_last_frame (b : Bool)
    (prev : Option ShotView) (cur : ShotView) :
    ContinuityManager.resolveFrames ⟨false, "bridging"⟩ prev cur =
      ContinuityManager.resolveFrames ⟨b, "last-frame"⟩ prev cur := by
  cases prev <;> rfl

/-- C6: in mode independent, resolveFrames never reads the predecessor: the
result is the current shot's keyframe with no target end frame, identical
for any two predecessor values. -/
theorem c6_independent_ignores_predecessor (sfl : Bool)
    (prev prev1 prev2 : Option ShotView) (cur : ShotView) :
    ContinuityManager.resolveFrames ⟨sfl, "independent"⟩ prev cur =
        ⟨cur.keyframe_image_path, none⟩ ∧
      ContinuityManager.resolveFrames ⟨sfl, "independent"⟩ prev1 cur =
        ContinuityManager.resolveFrames ⟨sfl, "independent"⟩ prev2 cur := by
  exact ⟨rfl, rfl⟩

/-- C7: for every project with a set (non-zero) target duration,
generateStoryboardShots yields exactly 4 shots, one per script section in
order hook, problem, solution, cta, each with duration_sec equal to
max 2 (round (target_duration / 4)); in particular a target duration of 32
yields shots of 8 seconds each. -/
theorem c7_storyboard_shots (p : StoryProject) (h : p.target_duration ≠ 0) :
    (generateStoryboardShots p).length = 4 ∧
    (generateStoryboardShots p).map (fun s => s.id) =
      ["hook-1", "problem-2", "solution-3", "cta-4"] ∧
    (∀ s ∈ generateStoryboardShots p,
      s.duration_sec = max 2 (jsRoundDiv p.target_duration 4)) ∧
    (p.target_duration = 32 → ∀ s ∈ generateStoryboardShots p, s.duration_sec = 8) := by
  have hb : (p.target_duration == 0) = false := by
    simpa using h
  refine ⟨?_, ?_, ?_, ?_⟩
  · simp [generateStoryboardShots, sectionLabels, List.enum]
  · simp [generateStoryboardShots, sectionLabels, List.enum, hb]
    decide
  · intro s hs
    simp only [generateStoryboardShots, sectionLabels, List.enum, hb] at hs
    simp only [Bool.false_eq_true, if_false] at hs
    fin_cases hs <;> rfl
  · intro h32 s hs
    simp only [generateStoryboardShots, sectionLabels, List.enum, h32] at hs
    fin_cases hs <;> rfl

/-- Witness for C7: a project with target duration 32 satisfies the
hypothesis and its storyboard has 4 shots of 8 seconds each. -/
theorem c7_storyboard_shots_witness :
    (32 : Nat) ≠ 0 ∧
      ((generateStoryboardShots ⟨⟨none, none, none, none⟩, 32⟩).length = 4 ∧
       (generateStoryboardShots ⟨⟨none, none, none, none⟩, 32⟩).map (fun s => s.id) =
         ["hook-1", "problem-2", "solution-3", "cta-4"] ∧
       (∀ s ∈ generateStoryboardShots ⟨⟨none, none, none, none⟩, 32⟩,
         s.duration_sec = max 2 (jsRoundDiv 32 4)) ∧
       ((32 : Nat) = 32 →
         ∀ s ∈ generateStoryboardShots ⟨⟨none, none, none, none⟩, 32⟩,
           s.duration_sec = 8)) :=
  ⟨by decide, c7_storyboard_shots ⟨⟨none, none, none, none⟩, 32⟩ (by decide)⟩

/-- C8: exporting a project in which no shot has a (truthy) clip path fails
with the specific no-clips error, leaves the file system untouched (no
output file is written) and returns no updated project (no exports history
entry, nothing persisted). -/
theorem c8_export_without_clips (project : ExportProject) (audio : Option String)
    (env : ExportEnv) (fs : FS)
    (h : ∀ s ∈ project.shots, jsTruthy s.clip_path = false) :
    exportProjectVideo project audio env fs =
      (.error "No clips available for export.", fs) := by
  have hnil : (project.shots.filterMap fun s =>
      if jsTruthy s.clip_path then s.clip_path else none) = [] := by
    rw [List.filterMap_eq_nil_iff]
    intro s hs
    simp [h s hs]
  simp [exportProjectVideo, hnil]

/-- Witness for C8: a one-shot project without a clip hits the error path
and the file system is returned unchanged. -/
theorem c8_export_without_clips_witness :
    (∀ s ∈ ([⟨"hook-1", none⟩] : List ExportShot), jsTruthy s.clip_path = false) ∧
      exportProjectVideo ⟨"p1", [⟨"hook-1", none⟩], []⟩ none ⟨true, true, "t0", "0"⟩ [] =
        (.error "No clips available for export.", []) :=
  ⟨by decide,
   c8_export_without_clips ⟨"p1", [⟨"hook-1", none⟩], []⟩ none ⟨true, true, "t0", "0"⟩ []
     (by decide)⟩

/-- C10: the batch clip generator builds its ContinuityManager without the
project's configured continuity mode, so the manager used for seed-frame
resolution has the constructor defaults mode bridging with
supportsFirstLast true; the resolutions therefore depend only on the shot
list, never on the project's continuity_mode (whose stored default is the
unrecognized string maintain); and any mode other than independent and
last-frame resolves exactly as bridging does. -/
theorem c10_batch_clips_ignore_continuity_mode
    (p1 p2 : PipelineProject) (hshots : p1.shots = p2.shots)
    (b : Bool) (m : String) (hm1 : m ≠ "independent") (hm2 : m ≠ "last-frame")
    (prev : Option ShotView) (cur : ShotView) :
    clipsContinuityManager.mode = "bridging" ∧
    clipsContinuityManager.supportsFirstLast = true ∧
    defaultProjectContinuityMode none = "maintain" ∧
    clipSeedFrames p1 = clipSeedFrames p2 ∧
    ContinuityManager.resolveFrames ⟨b, m⟩ prev cur =
      ContinuityManager.resolveFrames ⟨b, "bridging"⟩ prev cur := by
  have h1 : (m == "independent") = false := by
    simpa using hm1
  have h2 : (m == "last-frame") = false := by
    simpa using hm2
  refine ⟨rfl, rfl, rfl, ?_, ?_⟩
  · unfold clipSeedFrames
    rw [hshots]
  · cases prev <;>
      simp [ContinuityManager.resolveFrames, h1, h2]

/-- Witness for C10: two concrete projects sharing a shot list but configured
with modes maintain and independent resolve identically, and the concrete
mode maintain behaves as bridging. -/
theorem c10_batch_clips_ignore_continuity_mode_witness :
    ((⟨"p1", "maintain", [⟨some "k1.png", none⟩]⟩ : PipelineProject).shots =
        (⟨"p1", "independent", [⟨some "k1.png", none⟩]⟩ : PipelineProject).shots) ∧
      ("maintain" : String) ≠ "independent" ∧ ("maintain" : String) ≠ "last-frame" ∧
      (clipsContinuityManager.mode = "bridging" ∧
       clipsContinuityManager.supportsFirstLast = true ∧
       defaultProjectContinuityMode none = "maintain" ∧
       clipSeedFrames ⟨"p1", "maintain", [⟨some "k1.png", none⟩]⟩ =
         clipSeedFrames ⟨"p1", "independent", [⟨some "k1.png", none⟩]⟩ ∧
       ContinuityManager.resolveFrames ⟨true, "maintain"⟩ none ⟨some "k1.png", none⟩ =
         ContinuityManager.resolveFrames ⟨true, "bridging"⟩ none ⟨some "k1.png", none⟩) :=
  ⟨rfl, by decide, by decide,
   c10_batch_clips_ignore_continuity_mode
     ⟨"p1", "maintain", [⟨some "k1.png", none⟩]⟩
     ⟨"p1", "independent", [⟨some "k1.png", none⟩]⟩ rfl
     true "maintain" (by decide) (by decide) none ⟨some "k1.png", none⟩⟩

/-- C3 (amended): the download routines stream directly to the final
destination path.  A successful download writes exactly the destination
file (with the downloaded content); a network error removes the
destination; but an HTTP error status leaves an empty, truncated file at
the destination for the video download, and the image download finalizes
the response body at the destination whatever the status code. -/
theorem c3_download_not_atomic (rs : List String) (b : String) (code : Nat)
    (body msg out : String) (fs : FS) :
    downloadVideo ⟨rs, .okBody b⟩ out fs = (.ok (), FS.write fs out b) ∧
    downloadVideo ⟨rs, .httpStatus code body⟩ out fs =
      (.error ("Failed to download video: HTTP " ++ toString code),
       FS.write fs out "") ∧
    downloadVideo ⟨rs, .netError msg⟩ out fs = (.error msg, FS.erase fs out) ∧
    downloadImage ⟨rs, .okBody b⟩ out fs = (.ok (), FS.write fs out b) ∧
    downloadImage ⟨rs, .httpStatus code body⟩ out fs =
      (.ok (), FS.write fs out body) ∧
    downloadImage ⟨rs, .netError msg⟩ out fs = (.error msg, FS.erase fs out) := by
  refine ⟨?_, rfl, ?_, ?_, ?_, ?_⟩ <;>
    simp [downloadVideo, downloadImage, FS.write_write_same, FS.erase_write_same]

/-- Counterexample for C3 as stated: a video download answered with HTTP 404
rejects but truncates the previously intact file at the final destination
path to empty content — the destination is neither left unchanged nor
removed, so a failed download does leave a corrupt file at the final
path. -/
theorem c3_counterexample :
    (downloadVideo ⟨[], .httpStatus 404 "not found"⟩ "clip.mp4"
        [("clip.mp4", "old clip")]).1 =
      .error "Failed to download video: HTTP 404" ∧
    FS.read (downloadVideo ⟨[], .httpStatus 404 "not found"⟩ "clip.mp4"
        [("clip.mp4", "old clip")]).2 "clip.mp4" = some "" ∧
    FS.read ([("clip.mp4", "old clip")] : FS) "clip.mp4" = some "old clip" ∧
    (some "" : Option String) ≠ some "old clip" ∧
    (some "" : Option String) ≠ none := by
  refine ⟨rfl, by decide, by decide, by decide, by decide⟩

/-- The retry loop makes at most one invocation more than its remaining
budget allows. -/
theorem retryGo_attempts_le {α σ : Type} (fn : Nat → σ → Except String α × σ)
    (opts : RetryPolicy) (rand : Nat → ℚ) :
    ∀ (remaining attempt : Nat) (s : σ),
      (retryGo fn opts rand attempt remaining s).attemptsMade ≤ remaining + 1 := by
  intro remaining
  induction remaining with
  | zero =>
    intro attempt s
    rw [retryGo]
    rcases fn attempt s with ⟨r, s2⟩
    rcases r with a | e <;> simp
  | succ r ih =>
    intro attempt s
    rw [retryGo]
    rcases fn attempt s with ⟨res, s2⟩
    rcases res with e | a
    · by_cases hre : isRetryable e opts.retryableErrors
      · simpa [hre] using Nat.succ_le_succ (ih (attempt + 1) s2)
      · simp [hre]
    · simp

/-- The delays of a retry trace, starting at a given attempt number, each lie
between the maxDelay-capped exponential term of their attempt and
maxDelay. -/
def delaysWithin (opts : RetryPolicy) : Nat → List ℚ → Prop
  | _, [] => True
  | n, d :: rest =>
    (min (expBackoffTerm opts n) opts.maxDelayMs ≤ d ∧ d ≤ opts.maxDelayMs) ∧
      delaysWithin opts (n + 1) rest

/-- Bounds on one computed delay: at least the capped exponential term, at
most maxDelay, for a nonnegative random sample and nonnegative policy
parameters. -/
theorem calculateDelay_bounds (attempt : Nat) (i mx mult r : ℚ)
    (hi : 0 ≤ i) (hm : 0 ≤ mult) (hr : 0 ≤ r) :
    min (i * mult ^ (attempt - 1)) mx ≤ calculateDelay attempt i mx mult r ∧
      calculateDelay attempt i mx mult r ≤ mx := by
  have he : (0 : ℚ) ≤ i * mult ^ (attempt - 1) :=
    mul_nonneg hi (pow_nonneg hm _)
  have hj : (0 : ℚ) ≤ r * (3 / 10) * (i * mult ^ (attempt - 1)) := by
    have : (0 : ℚ) ≤ r * (3 / 10) := by positivity
    exact mul_nonneg this he
  unfold calculateDelay
  constructor
  · exact min_le_min (le_add_of_nonneg_right hj) le_rfl
  · exact min_le_right _ _

/-- Every delay in a retry trace is bounded as calculateDelay_bounds states,
attempt by attempt. -/
theorem retryGo_delays_within {α σ : Type} (fn : Nat → σ → Except String α × σ)
    (opts : RetryPolicy) (rand : Nat → ℚ)
    (hi : 0 ≤ opts.initialDelayMs) (hm : 0 ≤ opts.backoffMultiplier)
    (hr : ∀ n, 0 ≤ rand n) :
    ∀ (remaining attempt : Nat) (s : σ),
      delaysWithin opts attempt (retryGo fn opts rand attempt remaining s).delays := by
  intro remaining
  induction remaining with
  | zero =>
    intro attempt s
    rw [retryGo]
    rcases fn attempt s with ⟨r, s2⟩
    rcases r with a | e <;> simp [delaysWithin]
  | succ r ih =>
    intro attempt s
    rw [retryGo]
    rcases fn attempt s with ⟨res, s2⟩
    rcases res with e | a
    · by_cases hre : isRetryable e opts.retryableErrors
      · have hb := calculateDelay_bounds attempt opts.initialDelayMs opts.maxDelayMs
          opts.backoffMultiplier (rand attempt) hi hm (hr attempt)
        simp only [hre, if_true]
        exact ⟨hb, ih (attempt + 1) s2⟩
      · simp [hre, delaysWithin]
    · simp [delaysWithin]

/-- C2 (amended): for every retry policy with nonnegative delay parameters
and nonnegative random samples, the operation is invoked at most
maxRetries + 1 times, and every delay slept before attempt n + 1 lies in
the interval from min (initialDelay * multiplier ^ (n - 1)) maxDelay up to
maxDelay: the exponential lower bound of the original claim holds exactly
while the exponential term has not yet overtaken maxDelay. -/
theorem c2_retry_attempts_and_delays {α σ : Type}
    (fn : Nat → σ → Except String α × σ) (opts : RetryPolicy) (rand : Nat → ℚ)
    (s : σ) (hi : 0 ≤ opts.initialDelayMs) (hm : 0 ≤ opts.backoffMultiplier)
    (hr : ∀ n, 0 ≤ rand n) :
    (retryExec fn opts rand s).attemptsMade ≤ opts.maxRetries + 1 ∧
      delaysWithin opts 1 (retryExec fn opts rand s).delays :=
  ⟨retryGo_attempts_le fn opts rand opts.maxRetries 1 s,
   retryGo_delays_within fn opts rand hi hm hr opts.maxRetries 1 s⟩

/-- Witness for C2 (amended): the shipped default policy with an always
timing-out operation and zero jitter samples. -/
theorem c2_retry_attempts_and_delays_witness :
    (retryExec (fun _ (_ : Unit) => ((.error "ETIMEDOUT" : Except String Unit), ()))
        defaultRetryOptions (fun _ => 0) ()).attemptsMade ≤
      defaultRetryOptions.maxRetries + 1 ∧
    delaysWithin defaultRetryOptions 1
      (retryExec (fun _ (_ : Unit) => ((.error "ETIMEDOUT" : Except String Unit), ()))
        defaultRetryOptions (fun _ => 0) ()).delays :=
  c2_retry_attempts_and_delays _ defaultRetryOptions (fun _ => 0) ()
    (by decide) (by decide) (fun _ => le_refl 0)

/-- Counterexample for C2 as stated: under the policy with maxRetries 6,
initial delay 1000, multiplier 2 and maxDelay 30000, an operation that
keeps failing with a retryable HTTP 504 error and zero jitter samples
sleeps 30000 between attempts 6 and 7, strictly below the claimed
lower bound initialDelay * multiplier ^ (6 - 1) = 32000. -/
theorem c2_counterexample :
    (retryExec (fun _ (_ : Unit) => ((.error "HTTP 504" : Except String Unit), ()))
        ⟨6, 1000, 30000, 2, ["504"]⟩ (fun _ => 0) ()).delays.getD 5 0 = 30000 ∧
    expBackoffTerm ⟨6, 1000, 30000, 2, ["504"]⟩ 6 = 32000 ∧
    ¬(expBackoffTerm ⟨6, 1000, 30000, 2, ["504"]⟩ 6 ≤
      (retryExec (fun _ (_ : Unit) => ((.error "HTTP 504" : Except String Unit), ()))
        ⟨6, 1000, 30000, 2, ["504"]⟩ (fun _ => 0) ()).delays.getD 5 0) := by
  have hret : isRetryable "HTTP 504" ["504"] = true := by decide
  have hd : (retryExec (fun _ (_ : Unit) => ((.error "HTTP 504" : Except String Unit), ()))
      ⟨6, 1000, 30000, 2, ["504"]⟩ (fun _ => 0) ()).delays.getD 5 0 = 30000 := by
    simp only [retryExec, retryGo, hret, if_true]
    norm_num [calculateDelay, min_def, List.getD]
  have he : expBackoffTerm ⟨6, 1000, 30000, 2, ["504"]⟩ 6 = 32000 := by
    norm_num [expBackoffTerm]
  refine ⟨hd, he, ?_⟩
  rw [hd, he]
  norm_num

/-- Any property guaranteed by every successful invocation of the operation
holds of a successful retry outcome and its final state. -/
theorem retryGo_ok_spec {α σ : Type} {P : α → σ → Prop}
    (fn : Nat → σ → Except String α × σ) (opts : RetryPolicy) (rand : Nat → ℚ)
    (hfn : ∀ n s a s2, fn n s = (.ok a, s2) → P a s2) :
    ∀ (remaining attempt : Nat) (s : σ) (a : α),
      (retryGo fn opts rand attempt remaining s).result = .ok a →
        P a (retryGo fn opts rand attempt remaining s).state := by
  intro remaining
  induction remaining with
  | zero =>
    intro attempt s a
    rw [retryGo]
    rcases hfa : fn attempt s with ⟨res, s2⟩
    rcases res with e | b
    · intro hcontra
      simp at hcontra
    · intro hok
      simp at hok
      subst hok
      exact hfn attempt s b s2 hfa
  | succ r ih =>
    intro attempt s a
    rw [retryGo]
    rcases hfa : fn attempt s with ⟨res, s2⟩
    rcases res with e | b
    · by_cases hre : isRetryable e opts.retryableErrors
      · simp only [hre, if_true]
        exact ih (attempt + 1) s2 a
      · intro hcontra
        simp [hre] at hcontra
    · intro hok
      simp at hok
      subst hok
      exact hfn attempt s b s2 hfa

/-- An operation that always fails with the same error makes the whole retry
run fail with that error, leaving the threaded state where the last attempt
left it. -/
theorem retryGo_const_error {α σ : Type} (fn : Nat → σ → Except String α × σ)
    (opts : RetryPolicy) (rand : Nat → ℚ) (e : String)
    (hfn : ∀ n s, fn n s = (.error e, s)) :
    ∀ (remaining attempt : Nat) (s : σ),
      (retryGo fn opts rand attempt remaining s).result = .error e := by
  intro remaining
  induction remaining with
  | zero =>
    intro attempt s
    rw [retryGo, hfn]
  | succ r ih =>
    intro attempt s
    rw [retryGo, hfn]
    by_cases hre : isRetryable e opts.retryableErrors
    · simp only [hre, if_true]
      exact ih (attempt + 1) s
    · simp [hre]

/-- Appending a non-empty string on the right keeps a string non-empty. -/
theorem append_right_ne_empty (a c : String) (hc : c ≠ "") : a ++ c ≠ "" := by
  intro h
  apply hc
  have hd := congrArg String.data h
  rw [String.data_append] at hd
  rcases List.append_eq_nil.mp hd with ⟨-, h2⟩
  cases c
  simpa [String.ext_iff] using h2

/-- A truthy optional string extracts to a non-empty string. -/
theorem jsTruthy_getD_ne_empty (o : Option String) (h : jsTruthy o = true) :
    o.getD "" ≠ "" := by
  cases o with
  | none => simp [jsTruthy] at h
  | some s => simpa [jsTruthy] using h

/-- The placeholder script always carries four non-empty sections. -/
theorem placeholderScript_sections_ne_empty (brief : String) (err : Option String) :
    (placeholderScript brief err).hook ≠ "" ∧
    (placeholderScript brief err).problem ≠ "" ∧
    (placeholderScript brief err).solution ≠ "" ∧
    (placeholderScript brief err).cta ≠ "" := by
  refine ⟨by simp [placeholderScript], by simp [placeholderScript], ?_,
    by simp [placeholderScript]⟩
  show "That\x27s why we created something different. " ++ brief.take 100 ++ "..." ≠ ""
  exact append_right_ne_empty _ "..." (by decide)

/-- A script the Gemini response handler accepts has four non-empty
sections. -/
theorem processGemini_ok_sections (model : String) (r : GeminiScriptResponse)
    (a : ScriptResult) (h : processGeminiScriptResponse model r = .ok a) :
    a.hook ≠ "" ∧ a.problem ≠ "" ∧ a.solution ≠ "" ∧ a.cta ≠ "" := by
  cases r with
  | httpError m => simp [processGeminiScriptResponse] at h
  | netError m => simp [processGeminiScriptResponse] at h
  | noText => simp [processGeminiScriptResponse] at h
  | parseFail sn => simp [processGeminiScriptResponse] at h
  | parsed hh pp ss cc =>
    simp only [processGeminiScriptResponse] at h
    by_cases hv : (jsTruthy hh && jsTruthy pp && jsTruthy ss && jsTruthy cc) = true
    · rw [if_pos hv] at h
      injection h with h
      subst h
      simp only [Bool.and_eq_true] at hv
      exact ⟨jsTruthy_getD_ne_empty _ hv.1.1.1, jsTruthy_getD_ne_empty _ hv.1.1.2,
        jsTruthy_getD_ne_empty _ hv.1.2, jsTruthy_getD_ne_empty _ hv.2⟩
    · rw [if_neg hv] at h
      simp at h

/-- All four sections of a generated script are non-empty. -/
theorem generateScript_sections_ne_empty (cfg : LLMConfig) (brief : String)
    (responses : Nat → GeminiScriptResponse) (rand : Nat → ℚ) :
    (generateScript cfg brief responses rand).hook ≠ "" ∧
    (generateScript cfg brief responses rand).problem ≠ "" ∧
    (generateScript cfg brief responses rand).solution ≠ "" ∧
    (generateScript cfg brief responses rand).cta ≠ "" := by
  unfold generateScript
  by_cases hph : (llmActiveProvider cfg == "placeholder") = true
  · simp only [hph, if_true]
    exact placeholderScript_sections_ne_empty brief none
  · simp only [hph, if_false, Bool.false_eq_true]
    rcases hrun : (retryExec
        (fun attempt s =>
          (processGeminiScriptResponse cfg.geminiModel (responses attempt), s))
        cfg.retryConfig rand ()).result with e | s
    · simp only [hrun]
      exact placeholderScript_sections_ne_empty brief (some e)
    · simp only [hrun]
      refine retryGo_ok_spec
        (P := fun a (_ : Unit) => a.hook ≠ "" ∧ a.problem ≠ "" ∧ a.solution ≠ "" ∧ a.cta ≠ "")
        _ cfg.retryConfig rand ?_ cfg.retryConfig.maxRetries 1 () s hrun
      intro n u a u2 hab
      simp only [Prod.mk.injEq] at hab
      exact processGemini_ok_sections cfg.geminiModel (responses n) a hab.1

/-- C4: generateScript always resolves to a script whose four sections are
all non-empty; and when a real backend is active but every backend response
is a parsed script missing its cta section, each response is rejected as
the processing error for missing sections and, the chain exhausted, the
call returns the placeholder script carrying that error - whose four
fields the first part shows non-empty. -/
theorem c4_generate_script_sections (cfg : LLMConfig) (brief : String)
    (responses : Nat → GeminiScriptResponse) (rand : Nat → ℚ)
    (hh pp ss : Option String)
    (hUse : cfg.useReal = true) (hKey : jsTruthy cfg.geminiApiKey = true)
    (hMiss : ∀ n, responses n = .parsed hh pp ss none) :
    (∀ (cfg2 : LLMConfig) (brief2 : String)
        (responses2 : Nat → GeminiScriptResponse) (rand2 : Nat → ℚ),
      (generateScript cfg2 brief2 responses2 rand2).hook ≠ "" ∧
      (generateScript cfg2 brief2 responses2 rand2).problem ≠ "" ∧
      (generateScript cfg2 brief2 responses2 rand2).solution ≠ "" ∧
      (generateScript cfg2 brief2 responses2 rand2).cta ≠ "") ∧
    generateScript cfg brief responses rand =
      placeholderScript brief (some "Script missing required sections") := by
  refine ⟨generateScript_sections_ne_empty, ?_⟩
  have hact : llmActiveProvider cfg = "gemini" := by
    simp [llmActiveProvider, hUse, hKey]
  have hferr : ∀ (n : Nat) (s : Unit),
      (fun attempt s =>
        (processGeminiScriptResponse cfg.geminiModel (responses attempt), s)) n s =
        ((.error "Script missing required sections" : Except String ScriptResult), s) := by
    intro n s
    simp only [hMiss n, processGeminiScriptResponse, jsTruthy, Bool.and_false]
    rfl
  have hrun := retryGo_const_error _ cfg.retryConfig rand
    "Script missing required sections" hferr cfg.retryConfig.maxRetries 1 ()
  unfold generateScript
  rw [hact]
  simp only [retryExec] at hrun ⊢
  rw [hrun]
  rfl

/-- Witness for C4: a configured Gemini backend whose every response parses
but lacks the cta section degrades to the placeholder script carrying the
missing-sections error. -/
theorem c4_generate_script_sections_witness :
    (∀ (cfg2 : LLMConfig) (brief2 : String)
        (responses2 : Nat → GeminiScriptResponse) (rand2 : Nat → ℚ),
      (generateScript cfg2 brief2 responses2 rand2).hook ≠ "" ∧
      (generateScript cfg2 brief2 responses2 rand2).problem ≠ "" ∧
      (generateScript cfg2 brief2 responses2 rand2).solution ≠ "" ∧
      (generateScript cfg2 brief2 responses2 rand2).cta ≠ "") ∧
    generateScript ⟨true, some "api-key", "gemini-2.0-flash", geminiRetryConfig⟩
        "Launch brief"
        (fun _ => .parsed (some "h1") (some "p1") (some "s1") none) (fun _ => 0) =
      placeholderScript "Launch brief" (some "Script missing required sections") :=
  c4_generate_script_sections ⟨true, some "api-key", "gemini-2.0-flash", geminiRetryConfig⟩
    "Launch brief" (fun _ => .parsed (some "h1") (some "p1") (some "s1") none)
    (fun _ => 0) (some "h1") (some "p1") (some "s1") rfl (by decide) (fun _ => rfl)

/-- C9: a rollback request naming a shot that does not exist in the project,
or naming a version number absent from the target shot's history for the
requested asset kind, is answered with the corresponding not-found error
and leaves the persisted store untouched: no active pointer moves, no
history changes, nothing is saved. -/
theorem c9_rollback_not_found (store : ProjectStore) (pid sid : String)
    (v : Nat) (project : RollProject)
    (hp : List.lookup pid store = some project) :
    (project.shots.find? (fun s => s.id == sid) = none →
      (rollbackRoute store pid sid (some "keyframe") (some v) =
          (⟨404, some "Shot not found"⟩, store) ∧
       rollbackRoute store pid sid (some "clip") (some v) =
          (⟨404, some "Shot not found"⟩, store))) ∧
    (∀ shot, project.shots.find? (fun s => s.id == sid) = some shot →
      (∀ en ∈ (ensureShotHistory shot).keyframe_versions.getD [], en.version ≠ v) →
      rollbackRoute store pid sid (some "keyframe") (some v) =
        (⟨404, some "Keyframe version not found"⟩, store)) ∧
    (∀ shot, project.shots.find? (fun s => s.id == sid) = some shot →
      (∀ en ∈ (ensureShotHistory shot).clip_versions.getD [], en.version ≠ v) →
      rollbackRoute store pid sid (some "clip") (some v) =
        (⟨404, some "Clip version not found"⟩, store)) := by
  refine ⟨?_, ?_, ?_⟩
  · intro hshot
    constructor <;> simp [rollbackRoute, hp, hshot]
  · intro shot hshot hver
    have hfind : ((ensureShotHistory shot).keyframe_versions.getD []).find?
        (fun e => e.version == v) = none := by
      rw [List.find?_eq_none]
      intro en hen
      simpa using hver en hen
    simp [rollbackRoute, hp, hshot, jsTruthy, hfind]
  · intro shot hshot hver
    have hfind : ((ensureShotHistory shot).clip_versions.getD []).find?
        (fun e => e.version == v) = none := by
      rw [List.find?_eq_none]
      intro en hen
      simpa using hver en hen
    simp [rollbackRoute, hp, hshot, jsTruthy, hfind]

/-- Witness for C9: a concrete one-project store; the shot lookup fails for
an unknown shot id, and version 5 is absent from the known shot's keyframe
and clip histories. -/
theorem c9_rollback_not_found_witness :
    List.lookup "p1"
        ([("p1", ⟨"p1", [⟨"hook-1", some "k1.png", 1, none, 0,
            some [⟨1, some "k1.png"⟩], some []⟩]⟩)] : ProjectStore) =
      some ⟨"p1", [⟨"hook-1", some "k1.png", 1, none, 0,
        some [⟨1, some "k1.png"⟩], some []⟩]⟩ ∧
    (⟨"p1", [⟨"hook-1", some "k1.png", 1, none, 0, some [⟨1, some "k1.png"⟩],
        some []⟩]⟩ : RollProject).shots.find? (fun s => s.id == "missing-shot") =
      none ∧
    rollbackRoute
        ([("p1", ⟨"p1", [⟨"hook-1", some "k1.png", 1, none, 0,
            some [⟨1, some "k1.png"⟩], some []⟩]⟩)] : ProjectStore)
        "p1" "missing-shot" (some "keyframe") (some 5) =
      (⟨404, some "Shot not found"⟩,
       [("p1", ⟨"p1", [⟨"hook-1", some "k1.png", 1, none, 0,
          some [⟨1, some "k1.png"⟩], some []⟩]⟩)]) ∧
    rollbackRoute
        ([("p1", ⟨"p1", [⟨"hook-1", some "k1.png", 1, none, 0,
            some [⟨1, some "k1.png"⟩], some []⟩]⟩)] : ProjectStore)
        "p1" "hook-1" (some "keyframe") (some 5) =
      (⟨404, some "Keyframe version not found"⟩,
       [("p1", ⟨"p1", [⟨"hook-1", some "k1.png", 1, none, 0,
          some [⟨1, some "k1.png"⟩], some []⟩]⟩)]) := by
  have h := c9_rollback_not_found
    ([("p1", ⟨"p1", [⟨"hook-1", some "k1.png", 1, none, 0,
        some [⟨1, some "k1.png"⟩], some []⟩]⟩)] : ProjectStore)
    "p1" "missing-shot" 5
    ⟨"p1", [⟨"hook-1", some "k1.png", 1, none, 0, some [⟨1, some "k1.png"⟩],
      some []⟩]⟩ (by decide)
  have h2 := c9_rollback_not_found
    ([("p1", ⟨"p1", [⟨"hook-1", some "k1.png", 1, none, 0,
        some [⟨1, some "k1.png"⟩], some []⟩]⟩)] : ProjectStore)
    "p1" "hook-1" 5
    ⟨"p1", [⟨"hook-1", some "k1.png", 1, none, 0, some [⟨1, some "k1.png"⟩],
      some []⟩]⟩ (by decide)
  refine ⟨by decide, by decide, (h.1 (by decide)).1, ?_⟩
  exact h2.2.1 ⟨"hook-1", some "k1.png", 1, none, 0, some [⟨1, some "k1.png"⟩], some []⟩
    (by decide) (by decide)

/-- Every branch of the degraded placeholder leaves a file at the requested
destination. -/
theorem generatePlaceholderVideo_read (req : VideoRequest) (err : Option String)
    (env : VideoEnv) (fs : FS) :
    FS.read (generatePlaceholderVideo req err env fs).2 req.outputPath ≠ none := by
  unfold generatePlaceholderVideo
  dsimp only
  split
  · split <;> simp [FS.read_write_same]
  · simp [FS.read_write_same]

/-- The result record of the degraded placeholder. -/
theorem generatePlaceholderVideo_fst (req : VideoRequest) (err : Option String)
    (env : VideoEnv) (fs : FS) :
    (generatePlaceholderVideo req err env fs).1 =
      ⟨req.outputPath, if err.isSome then "placeholder-fallback" else "placeholder",
       "placeholder", err, false⟩ := rfl

/-- A successful backend attempt leaves the downloaded asset at the requested
destination. -/
theorem runVideoAttempt_ok_read (providerName modelName : String)
    (att : VideoAttempt) (req : VideoRequest) (fs : FS) (r : VideoResult) (fs2 : FS)
    (h : runVideoAttempt providerName modelName att req fs = (.ok r, fs2)) :
    FS.read fs2 req.outputPath ≠ none := by
  cases att with
  | preFail msg => simp [runVideoAttempt] at h
  | download dl =>
    cases hfin : dl.final with
    | okBody body =>
      simp only [runVideoAttempt, downloadVideo, hfin, Prod.mk.injEq] at h
      rw [← h.2]
      simp [FS.write_write_same, FS.read_write_same]
    | httpStatus code body => simp [runVideoAttempt, downloadVideo, hfin] at h
    | netError msg => simp [runVideoAttempt, downloadVideo, hfin] at h

/-- A successful backend attempt can only come from a non-failing attempt
script. -/
theorem runVideoAttempt_ok_not_fails (providerName modelName : String)
    (att : VideoAttempt) (req : VideoRequest) (fs : FS) (r : VideoResult) (fs2 : FS)
    (h : runVideoAttempt providerName modelName att req fs = (.ok r, fs2)) :
    att.fails = false := by
  cases att with
  | preFail msg => simp [runVideoAttempt] at h
  | download dl =>
    cases hfin : dl.final with
    | okBody body => simp [VideoAttempt.fails, hfin]
    | httpStatus code body => simp [runVideoAttempt, downloadVideo, hfin] at h
    | netError msg => simp [runVideoAttempt, downloadVideo, hfin] at h

/-- A successful fallback attempt leaves the downloaded asset at the
requested destination. -/
theorem fallbackAttemptOf_ok_read (cfg : VideoConfig) (req : VideoRequest)
    (env : VideoEnv) (fs : FS) (r : VideoResult) (fs2 : FS)
    (h : fallbackAttemptOf cfg req env fs = (.ok r, fs2)) :
    FS.read fs2 req.outputPath ≠ none := by
  unfold fallbackAttemptOf at h
  exact runVideoAttempt_ok_read _ _ _ _ _ _ _ h

/-- A successful fallback attempt can only come from a non-failing attempt
script. -/
theorem fallbackAttemptOf_ok_not_fails (cfg : VideoConfig) (req : VideoRequest)
    (env : VideoEnv) (fs : FS) (r : VideoResult) (fs2 : FS)
    (h : fallbackAttemptOf cfg req env fs = (.ok r, fs2)) :
    env.fallback.fails = false := by
  unfold fallbackAttemptOf at h
  exact runVideoAttempt_ok_not_fails _ _ _ _ _ _ _ h

/-- C1: every call to generateVideo with a non-empty output path resolves
(never rejects) with a result, and afterwards a file exists at the output
path; when a real backend is active, the primary retry chain fails, and
there is either no configured fallback or the fallback attempt also fails,
the resolved result reports the placeholder-fallback provider and carries
the primary error message for diagnostics. -/
theorem c1_generate_video (cfg : VideoConfig) (req : VideoRequest) (env : VideoEnv)
    (fs : FS) (h : req.outputPath ≠ "") :
    (∃ r, (generateVideo cfg req env fs).1 = .ok r) ∧
    FS.read (generateVideo cfg req env fs).2 req.outputPath ≠ none ∧
    (∀ e, videoActiveProvider cfg ≠ "placeholder" →
      (primaryRunOf cfg req env fs).result = .error e →
      (videoFallbackProvider cfg (videoActiveProvider cfg) = "placeholder" ∨
        env.fallback.fails = true) →
      ∃ r, (generateVideo cfg req env fs).1 = .ok r ∧
        r.provider = "placeholder-fallback" ∧ r.error = some e) := by
  have hne : (req.outputPath == "") = false := by simpa using h
  by_cases hact : (videoActiveProvider cfg == "placeholder") = true
  · rcases hgen : generatePlaceholderVideo req none env fs with ⟨r0, fs0⟩
    have hgv : generateVideo cfg req env fs = (.ok r0, fs0) := by
      simp [generateVideo, hne, hact, hgen]
    refine ⟨⟨r0, by rw [hgv]⟩, ?_, ?_⟩
    · rw [hgv]
      have := generatePlaceholderVideo_read req none env fs
      rwa [hgen] at this
    · intro e hnp
      exact absurd (by simpa using hact) hnp
  · rcases hrun : (primaryRunOf cfg req env fs).result with e0 | r0
    · by_cases hfb : (videoFallbackProvider cfg (videoActiveProvider cfg) ==
          "placeholder") = true
      · rcases hgen : generatePlaceholderVideo req (some e0) env
            (primaryRunOf cfg req env fs).state with ⟨r1, fs1⟩
        have hgv : generateVideo cfg req env fs = (.ok r1, fs1) := by
          simp [generateVideo, hne, hact, hrun, hfb, hgen]
        have hr1 : r1 = ⟨req.outputPath, "placeholder-fallback", "placeholder",
            some e0, false⟩ := by
          have := generatePlaceholderVideo_fst req (some e0) env
            (primaryRunOf cfg req env fs).state
          rw [hgen] at this
          simpa using this
        refine ⟨⟨r1, by rw [hgv]⟩, ?_, ?_⟩
        · rw [hgv]
          have := generatePlaceholderVideo_read req (some e0) env
            (primaryRunOf cfg req env fs).state
          rwa [hgen] at this
        · intro e hnp herr hor
          injection herr with herr
          subst herr
          exact ⟨r1, by rw [hgv], by rw [hr1], by rw [hr1]⟩
      · rcases hfbr : fallbackAttemptOf cfg req env
            (primaryRunOf cfg req env fs).state with ⟨res, fs2⟩
        rcases res with msg | r2
        · rcases hgen : generatePlaceholderVideo req (some e0) env fs2 with ⟨r3, fs3⟩
          have hgv : generateVideo cfg req env fs = (.ok r3, fs3) := by
            simp [generateVideo, hne, hact, hrun, hfb, hfbr, hgen]
          have hr3 : r3 = ⟨req.outputPath, "placeholder-fallback", "placeholder",
              some e0, false⟩ := by
            have := generatePlaceholderVideo_fst req (some e0) env fs2
            rw [hgen] at this
            simpa using this
          refine ⟨⟨r3, by rw [hgv]⟩, ?_, ?_⟩
          · rw [hgv]
            have := generatePlaceholderVideo_read req (some e0) env fs2
            rwa [hgen] at this
          · intro e hnp herr hor
            injection herr with herr
            subst herr
            exact ⟨r3, by rw [hgv], by rw [hr3], by rw [hr3]⟩
        · have hgv : generateVideo cfg req env fs =
              (.ok { r2 with fallbackUsed := true }, fs2) := by
            simp [generateVideo, hne, hact, hrun, hfb, hfbr]
          refine ⟨⟨{ r2 with fallbackUsed := true }, by rw [hgv]⟩, ?_, ?_⟩
          · rw [hgv]
            exact fallbackAttemptOf_ok_read _ _ _ _ _ _ hfbr
          · intro e hnp herr hor
            rcases hor with hor | hor
            · exact absurd (by simpa using hor) (by simpa using hfb)
            · have := fallbackAttemptOf_ok_not_fails _ _ _ _ _ _ hfbr
              rw [hor] at this
              cases this
    · have hgv : generateVideo cfg req env fs =
          (.ok r0, (primaryRunOf cfg req env fs).state) := by
        simp [generateVideo, hne, hact, hrun]
      have hread : FS.read (primaryRunOf cfg req env fs).state req.outputPath ≠ none := by
        have hok : (retryGo
            (fun attempt s =>
              runVideoAttempt (videoPrimaryName cfg (videoActiveProvider cfg))
                (videoPrimaryModel cfg (videoActiveProvider cfg))
                (env.primary attempt) req s)
            cfg.retryConfig env.rand 1 cfg.retryConfig.maxRetries fs).result = .ok r0 := by
          simpa [primaryRunOf, retryExec] using hrun
        have := retryGo_ok_spec
          (P := fun (_ : VideoResult) (s2 : FS) => FS.read s2 req.outputPath ≠ none)
          (fun attempt s =>
            runVideoAttempt (videoPrimaryName cfg (videoActiveProvider cfg))
              (videoPrimaryModel cfg (videoActiveProvider cfg))
              (env.primary attempt) req s)
          cfg.retryConfig env.rand
          (fun n s a s2 hs => runVideoAttempt_ok_read _ _ _ _ _ _ _ hs)
          cfg.retryConfig.maxRetries 1 fs r0 hok
        simpa [primaryRunOf, retryExec] using this
      refine ⟨⟨r0, by rw [hgv]⟩, by rw [hgv]; exact hread, ?_⟩
      intro e hnp herr
      cases herr

/-- Witness for C1: a concrete Gemini-active configuration whose primary
attempts and fallback all fail still resolves with a file at the
destination. -/
theorem c1_generate_video_witness :
    (∃ r, (generateVideo
        ⟨"gemini", true, some "gk", none, some "kwaivgi/kling-v2.6",
         "veo-3.0-fast-generate-001", geminiRetryConfig, 0⟩
        ⟨"a prompt", none, "out/clip.mp4", none, none, 4⟩
        ⟨false, false, fun _ => .preFail "HTTP 500 backend down",
         .preFail "fallback down", fun _ => 0⟩ []).1 = .ok r) ∧
    FS.read (generateVideo
        ⟨"gemini", true, some "gk", none, some "kwaivgi/kling-v2.6",
         "veo-3.0-fast-generate-001", geminiRetryConfig, 0⟩
        ⟨"a prompt", none, "out/clip.mp4", none, none, 4⟩
        ⟨false, false, fun _ => .preFail "HTTP 500 backend down",
         .preFail "fallback down", fun _ => 0⟩ []).2 "out/clip.mp4" ≠ none ∧
    (∀ e, videoActiveProvider
        ⟨"gemini", true, some "gk", none, some "kwaivgi/kling-v2.6",
         "veo-3.0-fast-generate-001", geminiRetryConfig, 0⟩ ≠ "placeholder" →
      (primaryRunOf
        ⟨"gemini", true, some "gk", none, some "kwaivgi/kling-v2.6",
         "veo-3.0-fast-generate-001", geminiRetryConfig, 0⟩
        ⟨"a prompt", none, "out/clip.mp4", none, none, 4⟩
        ⟨false, false, fun _ => .preFail "HTTP 500 backend down",
         .preFail "fallback down", fun _ => 0⟩ []).result = .error e →
      (videoFallbackProvider
          ⟨"gemini", true, some "gk", none, some "kwaivgi/kling-v2.6",
           "veo-3.0-fast-generate-001", geminiRetryConfig, 0⟩
          (videoActiveProvider
            ⟨"gemini", true, some "gk", none, some "kwaivgi/kling-v2.6",
             "veo-3.0-fast-generate-001", geminiRetryConfig, 0⟩) = "placeholder" ∨
        (VideoAttempt.preFail "fallback down").fails = true) →
      ∃ r, (generateVideo
          ⟨"gemini", true, some "gk", none, some "kwaivgi/kling-v2.6",
           "veo-3.0-fast-generate-001", geminiRetryConfig, 0⟩
          ⟨"a prompt", none, "out/clip.mp4", none, none, 4⟩
          ⟨false, false, fun _ => .preFail "HTTP 500 backend down",
           .preFail "fallback down", fun _ => 0⟩ []).1 = .ok r ∧
        r.provider = "placeholder-fallback" ∧ r.error = some e) :=
  c1_generate_video
    ⟨"gemini", true, some "gk", none, some "kwaivgi/kling-v2.6",
     "veo-3.0-fast-generate-001", geminiRetryConfig, 0⟩
    ⟨"a prompt", none, "out/clip.mp4", none, none, 4⟩
    ⟨false, false, fun _ => .preFail "HTTP 500 backend down",
     .preFail "fallback down", fun _ => 0⟩ [] (by decide)
